import Mathlib

/-!
Verification of the Carbon Pulse carbon-intensity data service.

The data model is embedded from `src/carbon_pulse/models.py`; the HTTP query
endpoints from `src/carbon_pulse/api/main.py`.  The time-series store
(`carbon_pulse/data/database.py`) and the remote provider client
(`carbon_pulse/data/electricity_maps.py`) are not present in the source tree
(only their tests and callers are), so they are modelled from the
specification, as flagged on each definition.

Timestamps are embedded as integers (seconds since an arbitrary epoch, one
hour = 3600), carbon intensities and percentages as rationals.  Python's
`datetime.fromisoformat` is an oracle parameter `fromiso : String → Option Int`
and the remote client an oracle parameter of the endpoints.
-/

namespace CarbonPulse

/-- Canonical carbon-intensity record, from `CarbonIntensityData` in
`src/carbon_pulse/models.py`: required `zone`, `timestamp`, `carbon_intensity`,
and fourteen optional fields defaulting to `None` (eleven energy-mix
percentages plus total production/consumption). -/
structure CarbonIntensityData where
  zone : String
  timestamp : Int
  carbon_intensity : ℚ
  fossil_fuel_percentage : Option ℚ
  renewable_percentage : Option ℚ
  nuclear_percentage : Option ℚ
  hydro_percentage : Option ℚ
  wind_percentage : Option ℚ
  solar_percentage : Option ℚ
  biomass_percentage : Option ℚ
  coal_percentage : Option ℚ
  gas_percentage : Option ℚ
  oil_percentage : Option ℚ
  unknown_percentage : Option ℚ
  total_production : Option ℚ
  total_consumption : Option ℚ
deriving DecidableEq, Repr

/-- An observation with only the required fields set, as produced by
`CarbonIntensityData(zone=..., timestamp=..., carbon_intensity=...)` with all
optional fields left at their `None` default. -/
def mkObs (zone : String) (timestamp : Int) (ci : ℚ) : CarbonIntensityData :=
  ⟨zone, timestamp, ci, none, none, none, none, none, none, none, none, none,
   none, none, none, none⟩

/-- One hour in embedded time units (seconds), the `timedelta(hours=1)` of
`src/carbon_pulse/api/main.py:114`. -/
def hourSecs : Int := 3600

/-- The `carbon_intensity` table contents of the store. -/
abbrev Store := List CarbonIntensityData

/-- The (zone, timestamp) natural key of an observation. -/
def obsKey (d : CarbonIntensityData) : String × Int := (d.zone, d.timestamp)

/-- Boolean test that two observations share the (zone, timestamp) key. -/
def sameKey (a b : CarbonIntensityData) : Bool :=
  a.zone == b.zone && a.timestamp == b.timestamp

/-- Modelled from the spec: `DatabaseManager.insert_carbon_intensity` of
`carbon_pulse/data/database.py` is not under `src/`.  Spec section 4.2:
"insert or replace keyed by (zone, timestamp); repeated identical inserts are
idempotent and both report success" (INSERT OR REPLACE per
`src/tests/test_database.py:156`).  Returns the new store and the success
flag. -/
def insert_carbon_intensity (db : Store) (d : CarbonIntensityData) :
    Store × Bool :=
  (db.filter (fun r => !(sameKey r d)) ++ [d], true)

/-- Membership test for a range query: same zone and timestamp within the
inclusive window (SQL BETWEEN). -/
def inRange (zone : String) (s e : Int) (r : CarbonIntensityData) : Bool :=
  r.zone == zone && decide (s ≤ r.timestamp) && decide (r.timestamp ≤ e)

/-- Timestamp order on observations, the ORDER BY timestamp of the store's
range query. -/
def tsLE (a b : CarbonIntensityData) : Prop := a.timestamp ≤ b.timestamp

instance : DecidableRel tsLE :=
  fun a b => inferInstanceAs (Decidable (a.timestamp ≤ b.timestamp))

instance : IsTotal CarbonIntensityData tsLE :=
  ⟨fun a b => Int.le_total a.timestamp b.timestamp⟩

instance : IsTrans CarbonIntensityData tsLE :=
  ⟨fun _ _ _ h h2 => le_trans h h2⟩

/-- Modelled from the spec: `DatabaseManager.get_carbon_intensity_history` of
`carbon_pulse/data/database.py` is not under `src/`.  Spec section 4.2
`getRange`: all observations of the zone with timestamp in the window,
ordered ascending by timestamp (window bounds inclusive, one of the two
inclusivities the spec allows). -/
def get_carbon_intensity_history (db : Store) (zone : String) (s e : Int) :
    List CarbonIntensityData :=
  List.insertionSort tsLE (db.filter (inRange zone s e))

/-- Modelled from the spec: `DatabaseManager.get_latest_carbon_intensity` of
`carbon_pulse/data/database.py` is not under `src/`.  Spec section 4.2
`getLatest`: the observation with maximal timestamp for the zone, or absent
if none exist. -/
def get_latest_carbon_intensity (db : Store) (zone : String) :
    Option CarbonIntensityData :=
  (List.insertionSort tsLE (db.filter (fun r => r.zone == zone))).getLast?

/-- The observations of the zone whose timestamps lie in the last
`hours` hours before `now`, the rows entering the average. -/
def windowRows (db : Store) (now : Int) (zone : String) (hours : Int) :
    Store :=
  db.filter (inRange zone (now - hours * hourSecs) now)

/-- Modelled from the spec: `DatabaseManager.get_average_carbon_intensity` of
`carbon_pulse/data/database.py` is not under `src/`.  Spec section 4.2
`getAverage`: arithmetic mean of `carbon_intensity` over observations with
timestamp between `now - hours` hours and `now`; absent when zero
observations match.  `now` is an explicit parameter standing for the wall
clock at the query. -/
def get_average_carbon_intensity (db : Store) (now : Int) (zone : String)
    (hours : Int) : Option ℚ :=
  match windowRows db now zone hours with
  | [] => none
  | rows => some ((rows.map fun r => r.carbon_intensity).sum / (rows.length : ℚ))

/-- Error taxonomy of the remote data client, spec section 7: malformed
datetime, zone unknown to the provider, provider/network failure. -/
inductive ClientError where
  | invalidArgument
  | invalidZone
  | remoteUnavailable
deriving DecidableEq, Repr

/-- Normalized provider JSON for a single-point intensity response: the
`datetime` field already parsed to embedded time, a required
`carbonIntensity`, and the optional camelCase metric fields of spec
section 6; absent JSON keys are `none`. -/
structure ProviderJson where
  datetime : Int
  carbonIntensity : ℚ
  fossilFuelPercentage : Option ℚ
  renewablePercentage : Option ℚ
  nuclearPercentage : Option ℚ
  hydroPercentage : Option ℚ
  windPercentage : Option ℚ
  solarPercentage : Option ℚ
  biomassPercentage : Option ℚ
  coalPercentage : Option ℚ
  gasPercentage : Option ℚ
  oilPercentage : Option ℚ
  unknownPercentage : Option ℚ
  totalProduction : Option ℚ
  totalConsumption : Option ℚ
deriving DecidableEq, Repr

/-- Outcome of one provider HTTP request: a JSON body on 2xx, or the
status classes the spec's error mapping distinguishes. -/
inductive ProviderResp where
  | ok (j : ProviderJson)
  | notFound
  | serverError
  | networkError
deriving DecidableEq, Repr

/-- Modelled from the spec: the response translation inside
`ElectricityMapsClient.get_carbon_intensity` of
`carbon_pulse/data/electricity_maps.py` is not under `src/`.  Builds the
canonical record: `zone` from the request, `timestamp` from the provider
`datetime`, each optional metric copied field-for-field with absence kept as
absence, never defaulted to zero (spec sections 3 and 9;
`src/tests/test_electricity_maps.py:366-387`). -/
def normalizeResponse (zone : String) (j : ProviderJson) : CarbonIntensityData :=
  { zone := zone
    timestamp := j.datetime
    carbon_intensity := j.carbonIntensity
    fossil_fuel_percentage := j.fossilFuelPercentage
    renewable_percentage := j.renewablePercentage
    nuclear_percentage := j.nuclearPercentage
    hydro_percentage := j.hydroPercentage
    wind_percentage := j.windPercentage
    solar_percentage := j.solarPercentage
    biomass_percentage := j.biomassPercentage
    coal_percentage := j.coalPercentage
    gas_percentage := j.gasPercentage
    oil_percentage := j.oilPercentage
    unknown_percentage := j.unknownPercentage
    total_production := j.totalProduction
    total_consumption := j.totalConsumption }

/-- Modelled from the spec: `ElectricityMapsClient.get_carbon_intensity` of
`carbon_pulse/data/electricity_maps.py` is not under `src/`.  Spec section
4.1 `getIntensity`: fails with `InvalidArgument` when the given instant
cannot be parsed, `InvalidZone` when the provider returns 404,
`RemoteUnavailable` on 5xx/network errors; otherwise normalizes the provider
body.  `fromiso` stands for `datetime.fromisoformat`, `provider` for the
provider's response to a request for (zone, optional instant). -/
def clientGetIntensity (fromiso : String → Option Int)
    (provider : String → Option String → ProviderResp)
    (zone : String) (instant : Option String) :
    Except ClientError CarbonIntensityData :=
  match instant with
  | some s =>
    match fromiso s with
    | none => .error .invalidArgument
    | some _ =>
      match provider zone (some s) with
      | .ok j => .ok (normalizeResponse zone j)
      | .notFound => .error .invalidZone
      | .serverError => .error .remoteUnavailable
      | .networkError => .error .remoteUnavailable
  | none =>
    match provider zone none with
    | .ok j => .ok (normalizeResponse zone j)
    | .notFound => .error .invalidZone
    | .serverError => .error .remoteUnavailable
    | .networkError => .error .remoteUnavailable

/-- An uncaught `HTTPException(status_code, detail)` raised by an endpoint of
`src/carbon_pulse/api/main.py`. -/
structure HTTPError where
  status : Nat
  detail : String
deriving DecidableEq, Repr

/-- The `APIResponse` envelope of `src/carbon_pulse/models.py` as the
endpoints construct it: `success`, optional `data` payload, `message`. -/
structure Envelope (α : Type) where
  success : Bool
  data : Option α
  message : String
deriving DecidableEq, Repr

/-- Result of one endpoint call: the HTTP-level response (an envelope on
success, an `HTTPException` otherwise), the store state after the call, and
how many times the remote client was invoked. -/
structure QueryOutcome (α : Type) where
  response : Except HTTPError (Envelope α)
  store : Store
  remoteCalls : Nat
deriving Repr

/-- JSON body shape of an HTTP response: either the standard envelope
(success flag, presence of data, message) or FastAPI's serialization of an
uncaught `HTTPException` as an object with a single `detail` field. -/
inductive Body where
  | envelope (success : Bool) (hasData : Bool) (message : String)
  | detail (msg : String)
deriving DecidableEq, Repr

/-- Status code and body actually sent on the wire for an endpoint
response: 200 with the envelope, or the `HTTPException` status with
FastAPI's default detail-object body. -/
def renderResponse {α : Type} (r : Except HTTPError (Envelope α)) : Nat × Body :=
  match r with
  | .ok e => (200, .envelope e.success e.data.isSome e.message)
  | .error h => (h.status, .detail h.detail)

/-- Whether a body is the standard envelope carrying `success = false`. -/
def isFailureEnvelope : Body → Bool
  | .envelope s _ _ => !s
  | .detail _ => false

/-- Python's `s.replace("Z", "+00:00")` preprocessing applied to incoming
ISO datetime strings (`src/carbon_pulse/api/main.py:113,163,164`). -/
def zReplace (s : String) : String := s.replace "Z" "+00:00"

/-- Embedded from `get_carbon_intensity` in
`src/carbon_pulse/api/main.py:99-145`, the GET
`/zones/{zone}/carbon-intensity` endpoint.  With a datetime string: parse
it, query the store for [dt, dt+1h]; if non-empty return the first element,
else fetch from the remote client with the raw string and persist.  Without:
take the store's latest, else fetch "now" and persist.  Any exception
(unparseable datetime, remote failure) is caught by the blanket handler and
becomes a 500 `HTTPException`. -/
def get_carbon_intensity_endpoint (fromiso : String → Option Int)
    (remote : String → Option String → Except ClientError CarbonIntensityData)
    (db : Store) (zone : String) (datetime_str : Option String) :
    QueryOutcome CarbonIntensityData :=
  match datetime_str with
  | some s =>
    match fromiso (zReplace s) with
    | none =>
      ⟨.error ⟨500, "Failed to retrieve carbon intensity for " ++ zone⟩, db, 0⟩
    | some dt =>
      match get_carbon_intensity_history db zone dt (dt + hourSecs) with
      | d :: _ =>
        ⟨.ok ⟨true, some d, "Carbon intensity data for " ++ zone⟩, db, 0⟩
      | [] =>
        match remote zone (some s) with
        | .ok d =>
          ⟨.ok ⟨true, some d, "Carbon intensity data for " ++ zone⟩,
           (insert_carbon_intensity db d).1, 1⟩
        | .error _ =>
          ⟨.error ⟨500, "Failed to retrieve carbon intensity for " ++ zone⟩,
           db, 1⟩
  | none =>
    match get_latest_carbon_intensity db zone with
    | some d =>
      ⟨.ok ⟨true, some d, "Carbon intensity data for " ++ zone⟩, db, 0⟩
    | none =>
      match remote zone none with
      | .ok d =>
        ⟨.ok ⟨true, some d, "Carbon intensity data for " ++ zone⟩,
         (insert_carbon_intensity db d).1, 1⟩
      | .error _ =>
        ⟨.error ⟨500, "Failed to retrieve carbon intensity for " ++ zone⟩,
         db, 1⟩

/-- Embedded from `get_carbon_intensity_history` in
`src/carbon_pulse/api/main.py:148-181`, the GET
`/zones/{zone}/carbon-intensity/history` endpoint: parse both dates, read
the store range, wrap it; a parse failure is caught by the blanket handler
and becomes a 500 `HTTPException`.  The endpoint body never references the
remote client; it is still a parameter so that independence from it is a
provable statement rather than a signature accident. -/
def get_carbon_intensity_history_endpoint (fromiso : String → Option Int)
    (_remote : String → Option String → Except ClientError CarbonIntensityData)
    (db : Store) (zone : String) (start_date end_date : String) :
    QueryOutcome (List CarbonIntensityData) :=
  match fromiso (zReplace start_date), fromiso (zReplace end_date) with
  | some s, some e =>
    ⟨.ok ⟨true, some (get_carbon_intensity_history db zone s e),
          "Carbon intensity history for " ++ zone⟩, db, 0⟩
  | _, _ =>
    ⟨.error ⟨500, "Failed to retrieve history for " ++ zone⟩, db, 0⟩

/-- Embedded from `get_average_carbon_intensity` in
`src/carbon_pulse/api/main.py:184-226`, the GET
`/zones/{zone}/carbon-intensity/average` endpoint: an absent store average
raises a 404 `HTTPException`, re-raised past the blanket handler; a present
average is wrapped in a success envelope. -/
def get_average_carbon_intensity_endpoint (db : Store) (now : Int)
    (zone : String) (hours : Int) : QueryOutcome ℚ :=
  match get_average_carbon_intensity db now zone hours with
  | none => ⟨.error ⟨404, "No data available for " ++ zone⟩, db, 0⟩
  | some a =>
    ⟨.ok ⟨true, some a,
          "Average carbon intensity for " ++ zone ++ " over " ++
            toString hours ++ " hours"⟩, db, 0⟩

/-- The store obtained by replaying a list of upserts, in order, against an
initially empty store — one store per insertion order. -/
def applyInserts (ds : List CarbonIntensityData) : Store :=
  ds.foldl (fun db d => (insert_carbon_intensity db d).1) []

/-- Uniqueness of the (zone, timestamp) natural key across the stored rows,
the PRIMARY KEY invariant of the `carbon_intensity` table. -/
def keysNodup (db : Store) : Prop := (db.map obsKey).Nodup

lemma sameKey_iff (a b : CarbonIntensityData) :
    sameKey a b = true ↔ obsKey a = obsKey b := by
  simp [sameKey, obsKey, Prod.ext_iff]

lemma keysNodup_insert {db : Store} (d : CarbonIntensityData)
    (h : keysNodup db) : keysNodup (insert_carbon_intensity db d).1 := by
  unfold keysNodup insert_carbon_intensity
  rw [List.map_append, List.nodup_append]
  refine ⟨List.Nodup.sublist ((List.filter_sublist db).map obsKey) h, by simp, ?_⟩
  intro x hx hx2
  simp only [List.map_cons, List.map_nil, List.mem_singleton] at hx2
  simp only [List.mem_map, List.mem_filter] at hx
  obtain ⟨r, ⟨_, hrfilt⟩, rfl⟩ := hx
  have hsk := (sameKey_iff r d).mpr hx2
  simp [hsk] at hrfilt

lemma keysNodup_foldl (ds : List CarbonIntensityData) :
    ∀ db : Store, keysNodup db →
      keysNodup (ds.foldl (fun db d => (insert_carbon_intensity db d).1) db) := by
  induction ds with
  | nil => intro db h; simpa using h
  | cons d ds ih => intro db h; exact ih _ (keysNodup_insert d h)

lemma keysNodup_applyInserts (ds : List CarbonIntensityData) :
    keysNodup (applyInserts ds) :=
  keysNodup_foldl ds [] (by simp [keysNodup])

lemma ts_nodup_filter {db : Store} (zone : String) (s e : Int)
    (h : keysNodup db) :
    ((db.filter (inRange zone s e)).map (fun r => r.timestamp)).Nodup := by
  have hp : List.Pairwise (fun a b => obsKey a ≠ obsKey b) db :=
    List.pairwise_map.mp h
  have hp2 : List.Pairwise (fun a b => obsKey a ≠ obsKey b)
      (db.filter (inRange zone s e)) :=
    List.Pairwise.sublist (List.filter_sublist db) hp
  refine List.pairwise_map.mpr (List.Pairwise.imp_of_mem ?_ hp2)
  intro a b ha hb hne hts
  apply hne
  have hza : a.zone = zone := by
    have := (List.mem_filter.mp ha).2
    simp only [inRange, Bool.and_eq_true, beq_iff_eq, decide_eq_true_eq] at this
    exact this.1.1
  have hzb : b.zone = zone := by
    have := (List.mem_filter.mp hb).2
    simp only [inRange, Bool.and_eq_true, beq_iff_eq, decide_eq_true_eq] at this
    exact this.1.1
  simp [obsKey, hza, hzb, hts]

/-- C6: for every set of stored observations of a zone and every insertion
order, `getRange(zone, start, end)` returns exactly the observations whose
timestamps fall in the queried window, sorted in strictly ascending
timestamp order. -/
theorem range_query_sorted_and_complete (ds : List CarbonIntensityData)
    (zone : String) (s e : Int) :
    List.Pairwise (fun a b : CarbonIntensityData => a.timestamp < b.timestamp)
      (get_carbon_intensity_history (applyInserts ds) zone s e) ∧
    (get_carbon_intensity_history (applyInserts ds) zone s e).Perm
      ((applyInserts ds).filter (inRange zone s e)) := by
  have hperm :=
    List.perm_insertionSort tsLE ((applyInserts ds).filter (inRange zone s e))
  refine ⟨?_, hperm⟩
  have hsorted :=
    List.sorted_insertionSort tsLE ((applyInserts ds).filter (inRange zone s e))
  have hnodup :
      (((applyInserts ds).filter (inRange zone s e)).map
        (fun r => r.timestamp)).Nodup :=
    ts_nodup_filter zone s e (keysNodup_applyInserts ds)
  have hnodup2 :
      ((get_carbon_intensity_history (applyInserts ds) zone s e).map
        (fun r => r.timestamp)).Nodup := by
    unfold get_carbon_intensity_history
    rw [(hperm.map (fun r => r.timestamp)).nodup_iff]
    exact hnodup
  have hne :
      List.Pairwise (fun a b : CarbonIntensityData =>
        a.timestamp ≠ b.timestamp)
      (get_carbon_intensity_history (applyInserts ds) zone s e) :=
    List.pairwise_map.mp hnodup2
  exact (List.Pairwise.and hsorted hne).imp
    (fun h => lt_of_le_of_ne h.1 h.2)

/-- C4: inserting the identical observation twice leaves exactly one stored
row for its (zone, timestamp) key, both calls report success, and the second
insert does not change the store at all. -/
theorem upsert_idempotent (db : Store) (d : CarbonIntensityData) :
    (insert_carbon_intensity db d).2 = true ∧
    (insert_carbon_intensity (insert_carbon_intensity db d).1 d).2 = true ∧
    ((insert_carbon_intensity (insert_carbon_intensity db d).1 d).1.filter
        (fun r => sameKey r d)).length = 1 ∧
    (insert_carbon_intensity (insert_carbon_intensity db d).1 d).1 =
      (insert_carbon_intensity db d).1 := by
  refine ⟨rfl, rfl, ?_, ?_⟩
  · simp [insert_carbon_intensity, List.filter_append, List.filter_filter,
      sameKey]
  · simp [insert_carbon_intensity, List.filter_append, List.filter_filter,
      sameKey]

/-- C9: the normalized record copies each optional energy-mix and
production/consumption field verbatim from the provider response — absence
stays absence and is never defaulted to zero — while the required `zone`,
`timestamp` and `carbon_intensity` fields are always populated from the
request zone and the provider's `datetime` and `carbonIntensity`. -/
theorem optional_fields_never_defaulted (zone : String) (j : ProviderJson) :
    (normalizeResponse zone j).zone = zone ∧
    (normalizeResponse zone j).timestamp = j.datetime ∧
    (normalizeResponse zone j).carbon_intensity = j.carbonIntensity ∧
    (normalizeResponse zone j).fossil_fuel_percentage = j.fossilFuelPercentage ∧
    (normalizeResponse zone j).renewable_percentage = j.renewablePercentage ∧
    (normalizeResponse zone j).nuclear_percentage = j.nuclearPercentage ∧
    (normalizeResponse zone j).hydro_percentage = j.hydroPercentage ∧
    (normalizeResponse zone j).wind_percentage = j.windPercentage ∧
    (normalizeResponse zone j).solar_percentage = j.solarPercentage ∧
    (normalizeResponse zone j).biomass_percentage = j.biomassPercentage ∧
    (normalizeResponse zone j).coal_percentage = j.coalPercentage ∧
    (normalizeResponse zone j).gas_percentage = j.gasPercentage ∧
    (normalizeResponse zone j).oil_percentage = j.oilPercentage ∧
    (normalizeResponse zone j).unknown_percentage = j.unknownPercentage ∧
    (normalizeResponse zone j).total_production = j.totalProduction ∧
    (normalizeResponse zone j).total_consumption = j.totalConsumption :=
  ⟨rfl, rfl, rfl, rfl, rfl, rfl, rfl, rfl, rfl, rfl, rfl, rfl, rfl, rfl,
   rfl, rfl⟩

/-- C3: `getAverage` returns the arithmetic mean of `carbon_intensity` over
the stored observations of the zone inside the window; for intensities that
are a rearrangement of [100, 200, 300] it returns exactly 200, and for zero
matching observations it returns absence (`none`), not zero and not an
error. -/
theorem get_average_mean_or_absent (db : Store) (now : Int) (zone : String)
    (hours : Int) :
    (windowRows db now zone hours = [] →
      get_average_carbon_intensity db now zone hours = none) ∧
    (∀ l, windowRows db now zone hours = l → l ≠ [] →
      get_average_carbon_intensity db now zone hours =
        some ((l.map fun r => r.carbon_intensity).sum / (l.length : ℚ))) ∧
    (((windowRows db now zone hours).map fun r => r.carbon_intensity).Perm
        [100, 200, 300] →
      get_average_carbon_intensity db now zone hours = some 200) := by
  have hgen : ∀ l, windowRows db now zone hours = l → l ≠ [] →
      get_average_carbon_intensity db now zone hours =
        some ((l.map fun r => r.carbon_intensity).sum / (l.length : ℚ)) := by
    intro l hl hne
    unfold get_average_carbon_intensity
    rw [hl]
    cases l with
    | nil => exact absurd rfl hne
    | cons a t => rfl
  refine ⟨?_, hgen, ?_⟩
  · intro h
    unfold get_average_carbon_intensity
    rw [h]
  · intro hperm
    have hlen : (windowRows db now zone hours).length = 3 := by
      simpa using hperm.length_eq
    have hne2 : windowRows db now zone hours ≠ [] := by
      intro h0
      rw [h0] at hlen
      simp at hlen
    rw [hgen _ rfl hne2, hperm.sum_eq, hlen]
    norm_num

/-- Witness for C3 at concrete stores: the empty store yields absence, and a
three-observation store with intensities 100, 200, 300 inside the last three
hours yields exactly 200. -/
theorem get_average_mean_or_absent_witness :
    get_average_carbon_intensity [] 0 "DE" 3 = none ∧
    get_average_carbon_intensity
      [mkObs "DE" 0 100, mkObs "DE" (-3600) 200, mkObs "DE" (-7200) 300]
      0 "DE" 3 = some 200 := by
  constructor
  · exact (get_average_mean_or_absent [] 0 "DE" 3).1 rfl
  · exact (get_average_mean_or_absent
      [mkObs "DE" 0 100, mkObs "DE" (-3600) 200, mkObs "DE" (-7200) 300]
      0 "DE" 3).2.2 (by decide)

lemma mem_history (db : Store) (zone : String) (s e : Int)
    {d : CarbonIntensityData} (hmem : d ∈ db) (hz : d.zone = zone)
    (h1 : s ≤ d.timestamp) (h2 : d.timestamp ≤ e) :
    d ∈ get_carbon_intensity_history db zone s e := by
  unfold get_carbon_intensity_history
  rw [List.mem_insertionSort, List.mem_filter]
  exact ⟨hmem, by simp [inRange, hz, h1, h2]⟩

/-- C1: when the store already holds an observation for the zone with
timestamp in [T, T+1h), the endpoint answers from the store: zero remote
calls, unchanged store, and the first element of the store's range result in
the success envelope — regardless of how old that observation is; likewise,
with the instant omitted, a non-absent `getLatest` is returned with no
remote call. -/
theorem cache_precedence (fromiso : String → Option Int)
    (remote : String → Option String → Except ClientError CarbonIntensityData)
    (db : Store) (zone : String) (s : String) (dt : Int)
    (d : CarbonIntensityData)
    (hparse : fromiso (zReplace s) = some dt)
    (hmem : d ∈ db) (hz : d.zone = zone)
    (hlo : dt ≤ d.timestamp) (hhi : d.timestamp < dt + hourSecs) :
    ((get_carbon_intensity_endpoint fromiso remote db zone (some s)).remoteCalls
        = 0 ∧
     (get_carbon_intensity_endpoint fromiso remote db zone (some s)).store
        = db ∧
     (get_carbon_intensity_endpoint fromiso remote db zone (some s)).response =
       .ok ⟨true,
            (get_carbon_intensity_history db zone dt (dt + hourSecs)).head?,
            "Carbon intensity data for " ++ zone⟩) ∧
    (∀ dl, get_latest_carbon_intensity db zone = some dl →
      get_carbon_intensity_endpoint fromiso remote db zone none =
        ⟨.ok ⟨true, some dl, "Carbon intensity data for " ++ zone⟩, db, 0⟩) := by
  constructor
  · have hmem2 : d ∈ get_carbon_intensity_history db zone dt (dt + hourSecs) :=
      mem_history db zone dt (dt + hourSecs) hmem hz hlo (le_of_lt hhi)
    cases hh : get_carbon_intensity_history db zone dt (dt + hourSecs) with
    | nil =>
      rw [hh] at hmem2
      simp at hmem2
    | cons d0 t =>
      refine ⟨?_, ?_, ?_⟩ <;>
        simp [get_carbon_intensity_endpoint, hparse, hh]
  · intro dl hdl
    simp [get_carbon_intensity_endpoint, hdl]

/-- Witness for C1: a store holding one observation for US at time 100
answers a request for instant 0 with zero remote calls and an unchanged
store. -/
theorem cache_precedence_witness :
    (get_carbon_intensity_endpoint (fun _ => some 0)
        (fun _ _ => Except.error ClientError.remoteUnavailable)
        [mkObs "US" 100 250] "US" (some "t")).remoteCalls = 0 ∧
    (get_carbon_intensity_endpoint (fun _ => some 0)
        (fun _ _ => Except.error ClientError.remoteUnavailable)
        [mkObs "US" 100 250] "US" (some "t")).store = [mkObs "US" 100 250] := by
  have h := cache_precedence (fun _ => some 0)
      (fun _ _ => Except.error ClientError.remoteUnavailable)
      [mkObs "US" 100 250] "US" "t" 0 (mkObs "US" 100 250)
      rfl (by simp) rfl (by decide) (by decide)
  exact ⟨h.1.1, h.1.2.1⟩

/-- C2: on a store miss the endpoint calls the remote client exactly once,
persists the fetched observation through the upsert before returning, and
returns that same observation; starting from an empty store the call leaves
exactly one stored observation, carrying the requested zone. -/
theorem read_through_miss (fromiso : String → Option Int)
    (remote : String → Option String → Except ClientError CarbonIntensityData)
    (db : Store) (zone : String) (s : String) (dt : Int) :
    ((get_latest_carbon_intensity db zone = none →
      (get_carbon_intensity_endpoint fromiso remote db zone none).remoteCalls
          = 1 ∧
      (∀ d, remote zone none = .ok d →
        (get_carbon_intensity_endpoint fromiso remote db zone none).store =
          (insert_carbon_intensity db d).1 ∧
        (get_carbon_intensity_endpoint fromiso remote db zone none).response =
          .ok ⟨true, some d, "Carbon intensity data for " ++ zone⟩)) ∧
     (fromiso (zReplace s) = some dt →
      get_carbon_intensity_history db zone dt (dt + hourSecs) = [] →
      (get_carbon_intensity_endpoint fromiso remote db zone
          (some s)).remoteCalls = 1 ∧
      (∀ d, remote zone (some s) = .ok d →
        (get_carbon_intensity_endpoint fromiso remote db zone (some s)).store =
          (insert_carbon_intensity db d).1 ∧
        (get_carbon_intensity_endpoint fromiso remote db zone
            (some s)).response =
          .ok ⟨true, some d, "Carbon intensity data for " ++ zone⟩))) ∧
    (db = [] → ∀ d, remote zone none = .ok d → d.zone = zone →
      (get_carbon_intensity_endpoint fromiso remote db zone none).store =
        [d] ∧
      ((get_carbon_intensity_endpoint fromiso remote db zone none).store.filter
          (fun r => r.zone == zone)).length = 1) := by
  refine ⟨⟨?_, ?_⟩, ?_⟩
  · intro hlat
    constructor
    · cases hr : remote zone none <;>
        simp [get_carbon_intensity_endpoint, hlat, hr]
    · intro d hd
      constructor <;> simp [get_carbon_intensity_endpoint, hlat, hd]
  · intro hparse hhist
    constructor
    · cases hr : remote zone (some s) <;>
        simp [get_carbon_intensity_endpoint, hparse, hhist, hr]
    · intro d hd
      constructor <;>
        simp [get_carbon_intensity_endpoint, hparse, hhist, hd]
  · intro hdb d hd hz
    subst hdb
    constructor
    · simp [get_carbon_intensity_endpoint, get_latest_carbon_intensity, hd,
        insert_carbon_intensity]
    · simp [get_carbon_intensity_endpoint, get_latest_carbon_intensity, hd,
        insert_carbon_intensity, hz]

/-- Witness for C2: from an empty store and a remote returning one US
observation, the endpoint makes one remote call and the store ends with
exactly that observation. -/
theorem read_through_miss_witness :
    (get_carbon_intensity_endpoint (fun _ => some 0)
        (fun _ _ => Except.ok (mkObs "US" 0 100)) [] "US" none).remoteCalls
        = 1 ∧
    (get_carbon_intensity_endpoint (fun _ => some 0)
        (fun _ _ => Except.ok (mkObs "US" 0 100)) [] "US" none).store =
      [mkObs "US" 0 100] := by
  have h := read_through_miss (fun _ => some 0)
      (fun _ _ => Except.ok (mkObs "US" 0 100)) [] "US" "x" 0
  exact ⟨(h.1.1 rfl).1, (h.2 rfl (mkObs "US" 0 100) rfl rfl).1⟩

/-- C7: the history endpoint is a pure store read — the store it returns is
the store it was given, the remote client is called zero times, and the
outcome does not depend on the remote client at all, also on parse failures
and empty results. -/
theorem history_endpoint_pure (fromiso : String → Option Int)
    (r1 r2 : String → Option String → Except ClientError CarbonIntensityData)
    (db : Store) (zone : String) (sd ed : String) :
    (get_carbon_intensity_history_endpoint fromiso r1 db zone sd ed).store
        = db ∧
    (get_carbon_intensity_history_endpoint fromiso r1 db zone sd ed).remoteCalls
        = 0 ∧
    get_carbon_intensity_history_endpoint fromiso r1 db zone sd ed =
      get_carbon_intensity_history_endpoint fromiso r2 db zone sd ed := by
  unfold get_carbon_intensity_history_endpoint
  cases fromiso (zReplace sd) <;> cases fromiso (zReplace ed) <;> simp

/-- C10: a datetime string rejected by `fromisoformat` (after the Z
replacement) on the point-intensity endpoint, and a rejected start or end
date on the history endpoint, are swallowed by the blanket handler and
surface as HTTP 500 with the endpoint's generic message — not as 400 and
with no distinct InvalidArgument error; no remote call and no store write
happen on the way. -/
theorem invalid_datetime_yields_500 (fromiso : String → Option Int)
    (remote : String → Option String → Except ClientError CarbonIntensityData)
    (db : Store) (zone : String) (s sd ed : String)
    (hs : fromiso (zReplace s) = none) :
    ((get_carbon_intensity_endpoint fromiso remote db zone (some s)).response =
        .error ⟨500, "Failed to retrieve carbon intensity for " ++ zone⟩ ∧
     (get_carbon_intensity_endpoint fromiso remote db zone
         (some s)).remoteCalls = 0 ∧
     (get_carbon_intensity_endpoint fromiso remote db zone (some s)).store
        = db) ∧
    (fromiso (zReplace sd) = none ∨ fromiso (zReplace ed) = none →
      (get_carbon_intensity_history_endpoint fromiso remote db zone sd
          ed).response =
        .error ⟨500, "Failed to retrieve history for " ++ zone⟩) := by
  constructor
  · refine ⟨?_, ?_, ?_⟩ <;> simp [get_carbon_intensity_endpoint, hs]
  · intro hcase
    unfold get_carbon_intensity_history_endpoint
    rcases hcase with h | h
    · cases h2 : fromiso (zReplace ed) <;> simp [h, h2]
    · cases h2 : fromiso (zReplace sd) <;> simp [h, h2]

/-- Witness for C10: with a parser rejecting every string, both endpoints
answer 500 with their generic messages. -/
theorem invalid_datetime_yields_500_witness :
    (get_carbon_intensity_endpoint (fun _ => none)
        (fun _ _ => Except.error ClientError.remoteUnavailable) [] "US"
        (some "not-a-date")).response =
      Except.error ⟨500, "Failed to retrieve carbon intensity for " ++ "US"⟩ ∧
    (get_carbon_intensity_history_endpoint (fun _ => none)
        (fun _ _ => Except.error ClientError.remoteUnavailable) [] "US"
        "not-a-date" "also-bad").response =
      Except.error ⟨500, "Failed to retrieve history for " ++ "US"⟩ := by
  have h := invalid_datetime_yields_500 (fun _ => none)
      (fun _ _ => Except.error ClientError.remoteUnavailable) [] "US"
      "not-a-date" "not-a-date" "also-bad" rfl
  exact ⟨h.1.1, h.2 (Or.inl rfl)⟩

/-- Counterexample to C5 as stated: a failing call (remote down, empty
store) is answered with status 500, but its wire body is FastAPI's
detail object for the uncaught `HTTPException`, not the standard envelope
with `success = false` — no exception handler in
`src/carbon_pulse/api/main.py` converts failures into `APIResponse`. -/
theorem error_response_not_envelope :
    (renderResponse (get_carbon_intensity_endpoint (fun _ => none)
        (fun _ _ => Except.error ClientError.remoteUnavailable) [] "US"
        none).response).1 = 500 ∧
    isFailureEnvelope (renderResponse (get_carbon_intensity_endpoint
        (fun _ => none) (fun _ _ => Except.error ClientError.remoteUnavailable)
        [] "US" none).response).2 = false :=
  ⟨rfl, rfl⟩

/-- C5 as amended: every failure of the point, history and average
endpoints carries HTTP 500 with the endpoint's fixed human-readable message
— independent of the internal error, so no stack detail leaks — except the
average endpoint's "no data" case, which carries exactly HTTP 404; success
responses are envelopes with `success = true`.  (Failure bodies are
FastAPI's detail objects, not `success = false` envelopes.) -/
theorem query_api_error_contract (fromiso : String → Option Int)
    (remote : String → Option String → Except ClientError CarbonIntensityData)
    (db : Store) (now : Int) (zone : String) (hours : Int)
    (dstr : Option String) (sd ed : String) :
    (∀ h, (get_carbon_intensity_endpoint fromiso remote db zone
        dstr).response = .error h →
      h = ⟨500, "Failed to retrieve carbon intensity for " ++ zone⟩) ∧
    (∀ e, (get_carbon_intensity_endpoint fromiso remote db zone
        dstr).response = .ok e → e.success = true) ∧
    (∀ h, (get_carbon_intensity_history_endpoint fromiso remote db zone sd
        ed).response = .error h →
      h = ⟨500, "Failed to retrieve history for " ++ zone⟩) ∧
    (∀ e, (get_carbon_intensity_history_endpoint fromiso remote db zone sd
        ed).response = .ok e → e.success = true) ∧
    (∀ h, (get_average_carbon_intensity_endpoint db now zone hours).response
        = .error h →
      h = ⟨404, "No data available for " ++ zone⟩ ∧
        get_average_carbon_intensity db now zone hours = none) ∧
    (∀ e, (get_average_carbon_intensity_endpoint db now zone hours).response
        = .ok e → e.success = true) := by
  refine ⟨?_, ?_, ?_, ?_, ?_, ?_⟩
  · intro h hresp
    unfold get_carbon_intensity_endpoint at hresp
    repeat' split at hresp
    all_goals simp_all
  · intro e hresp
    unfold get_carbon_intensity_endpoint at hresp
    repeat' split at hresp
    all_goals simp_all
    all_goals subst hresp
    all_goals rfl
  · intro h hresp
    unfold get_carbon_intensity_history_endpoint at hresp
    repeat' split at hresp
    all_goals simp_all
  · intro e hresp
    unfold get_carbon_intensity_history_endpoint at hresp
    repeat' split at hresp
    all_goals simp_all
    all_goals subst hresp
    all_goals rfl
  · intro h hresp
    unfold get_average_carbon_intensity_endpoint at hresp
    split at hresp
    all_goals simp_all
  · intro e hresp
    unfold get_average_carbon_intensity_endpoint at hresp
    split at hresp
    all_goals simp_all
    all_goals subst hresp
    all_goals rfl

/-- Witness for the amended C5: with a rejecting parser, a failing remote
and an empty store, the point endpoint's failure is exactly the 500 error
and the average endpoint's failure is the 404 no-data case. -/
theorem query_api_error_contract_witness :
    HTTPError.mk 500 ("Failed to retrieve carbon intensity for " ++ "US") =
      ⟨500, "Failed to retrieve carbon intensity for " ++ "US"⟩ ∧
    get_average_carbon_intensity [] 0 "US" 24 = none := by
  have h := query_api_error_contract (fun _ => none)
      (fun _ _ => Except.error ClientError.remoteUnavailable) [] 0 "US" 24
      none "a" "b"
  refine ⟨h.1 ⟨500, "Failed to retrieve carbon intensity for " ++ "US"⟩ rfl, ?_⟩
  exact (h.2.2.2.2.1 ⟨404, "No data available for " ++ "US"⟩ rfl).2

/-- C8: the remote client maps an unparseable instant to `InvalidArgument`
before any provider call, a provider 404 to `InvalidZone`, provider 5xx and
network failures to `RemoteUnavailable`; and it succeeds only by normalizing
an actual provider body — never silently with null data. -/
theorem client_error_mapping (fromiso : String → Option Int)
    (provider : String → Option String → ProviderResp)
    (hbad : fromiso "invalid-datetime" = none) :
    clientGetIntensity fromiso provider "US" (some "invalid-datetime") =
      .error .invalidArgument ∧
    (provider "INVALID_ZONE" none = .notFound →
      clientGetIntensity fromiso provider "INVALID_ZONE" none =
        .error .invalidZone) ∧
    ((provider "INVALID_ZONE" none = .serverError ∨
        provider "INVALID_ZONE" none = .networkError) →
      clientGetIntensity fromiso provider "INVALID_ZONE" none =
        .error .remoteUnavailable) ∧
    (∀ zone instant d,
      clientGetIntensity fromiso provider zone instant = .ok d →
      ∃ j, d = normalizeResponse zone j ∧
        ((instant = none ∧ provider zone none = .ok j) ∨
         (∃ s, instant = some s ∧ provider zone (some s) = .ok j))) := by
  refine ⟨?_, ?_, ?_, ?_⟩
  · simp [clientGetIntensity, hbad]
  · intro h
    simp [clientGetIntensity, h]
  · rintro (h | h) <;> simp [clientGetIntensity, h]
  · intro zone instant d hok
    unfold clientGetIntensity at hok
    cases instant with
    | none =>
      cases hp : provider zone none <;> simp [hp] at hok
      exact ⟨_, hok.symm, Or.inl ⟨rfl, rfl⟩⟩
    | some s =>
      cases hfs : fromiso s with
      | none => simp [hfs] at hok
      | some t =>
        cases hp : provider zone (some s) <;> simp [hfs, hp] at hok
        exact ⟨_, hok.symm, Or.inr ⟨s, rfl, hp⟩⟩

/-- Witness for C8: with a parser rejecting every string and a provider
answering 404, the invalid-datetime call fails with InvalidArgument and the
invalid-zone call fails with InvalidZone. -/
theorem client_error_mapping_witness :
    clientGetIntensity (fun _ => none) (fun _ _ => ProviderResp.notFound)
      "US" (some "invalid-datetime") =
      Except.error ClientError.invalidArgument ∧
    clientGetIntensity (fun _ => none) (fun _ _ => ProviderResp.notFound)
      "INVALID_ZONE" none = Except.error ClientError.invalidZone := by
  have h := client_error_mapping (fun _ => none)
      (fun _ _ => ProviderResp.notFound) rfl
  exact ⟨h.1, h.2.1 rfl⟩

end CarbonPulse
